import Mathlib

/-!
Shallow embedding of the three S3 Glacier command-line tools:
`glacier-restore-status.py` (Status Scanner), `glacier-restore.py`
(Restore Requester) and `glacier-generate-dummy-files.py` (Uploader).
Remote S3 behaviour is abstracted by explicit per-object oracles; every
remote call the scripts issue is recorded in a trace so that claims about
which calls are made can be stated and proved.
-/

namespace Glacier

/-- Contiguous-sublist search: does `pat` occur inside `l`? -/
def subSearch (pat : List Char) : List Char → Bool
  | [] => pat.isPrefixOf []
  | c :: cs => pat.isPrefixOf (c :: cs) || subSearch pat cs

/-- Python's substring test `pat in s` (`str.__contains__`). -/
def pyIn (pat s : String) : Bool := subSearch pat.data s.data

/-- Python truthiness of an optional string (`None` and `""` are falsy). -/
def pyTruthy : Option String → Bool
  | none => false
  | some s => !(s == "")

/-- An exception raised by a remote call.  `isClientError` says whether it
is a botocore `ClientError` (the only kind `glacier-restore.py` catches at
its restore-initiation call); `msg` is `str(e)`. -/
structure Exn where
  isClientError : Bool
  msg : String
deriving DecidableEq, Repr

/-- Result of a successful `head_object` call: the optional `Restore`
header, the optional `StorageClass`, and `ContentLength` (the scripts read
it with a default of 0, which we fold into the field). -/
structure HeadObj where
  restore : Option String
  storageClass : Option String
  contentLength : Nat
deriving DecidableEq, Repr

/-- Remote behaviour of one object: what `head_object` returns (or raises),
and what `restore_object` does for given `(Days, Tier)` arguments
(`none` = succeeds, `some e` = raises `e`). -/
structure S3ObjectBehavior where
  headResult : Except Exn HeadObj
  restoreResult : Nat → String → Option Exn

/-- Storage classes treated as archival by both scripts
(`['GLACIER', 'DEEP_ARCHIVE', 'GLACIER_IR']`). -/
def archivalClasses : List String := ["GLACIER", "DEEP_ARCHIVE", "GLACIER_IR"]

/-- Python `storage_class in ['GLACIER', 'DEEP_ARCHIVE', 'GLACIER_IR']`
where `storage_class` may be `None` (absent key). -/
def isArchival : Option String → Bool
  | none => false
  | some c => archivalClasses.contains c

/-- The restore-header text `ongoing-request="true"`. -/
def trueFlag : String := "ongoing-request=\"true\""

/-- The restore-header text `ongoing-request="false"`. -/
def falseFlag : String := "ongoing-request=\"false\""

/-- One entry of a `list_objects_v2` page: key, size (`Size` with default
0) and the optional `StorageClass` annotation. -/
structure ListedObj where
  key : String
  size : Nat
  storageClass : Option String
deriving DecidableEq, Repr

/-! ## glacier-restore-status.py (Status Scanner) -/

/-- Value returned by `check_restore_status`: the `(key, status, size)`
triple. -/
structure StatusResult where
  key : String
  status : String
  size : Nat
deriving DecidableEq, Repr

/-- Embedding of `check_restore_status` (lines 15-28).  The whole body is
wrapped in `try/except Exception`, so a `head_object` failure yields
`(key, 'Error', 0)` and nothing propagates. -/
def check_restore_status (b : S3ObjectBehavior) (key : String) : StatusResult :=
  match b.headResult with
  | Except.error _ => ⟨key, "Error", 0⟩
  | Except.ok obj =>
    let size := obj.contentLength
    if pyTruthy obj.restore then
      let f := obj.restore.getD ("")
      if pyIn falseFlag f then ⟨key, "Completed", size⟩
      else if pyIn trueFlag f then ⟨key, "In Progress", size⟩
      else ⟨key, "Not Started", size⟩
    else ⟨key, "Not Started", size⟩

/-- The scanner's `summary` dictionary (lines 35-43). -/
structure StatusSummary where
  completed : Nat
  inProgress : Nat
  notStarted : Nat
  error : Nat
  total : Nat
  restoredSize : Nat
  totalSize : Nat
deriving DecidableEq, Repr

/-- Listing filter shared by both scripts (scanner lines 46-52, requester
lines 87-92): skip the entry when its key equals the prefix, its size is 0,
or it has no `StorageClass` annotation. -/
def scanFilter (pfx : String) (listing : List ListedObj) : List (String × Nat) :=
  (listing.filter fun o =>
    !(o.key == pfx) && !(o.size == 0) && o.storageClass.isSome).map
    fun o => (o.key, o.size)

/-- Scanner summary before any worker result is collected (lines 35-43 and
54-55): `Total` is the number of enumerated objects, `TotalSize` the sum of
their listed sizes. -/
def initSummary (objects : List (String × Nat)) : StatusSummary :=
  { completed := 0, inProgress := 0, notStarted := 0, error := 0
    total := objects.length
    restoredSize := 0
    totalSize := (objects.map Prod.snd).sum }

/-- One iteration of the scanner's collection loop (lines 59-63):
`summary[status] += 1`, and `RestoredSize += restored_bytes` when the
status is `Completed`.  The final branch is unreachable for results of
`check_restore_status` (in Python it would be a `KeyError`). -/
def addResult (s : StatusSummary) (r : StatusResult) : StatusSummary :=
  if r.status = "Completed" then
    { s with completed := s.completed + 1, restoredSize := s.restoredSize + r.size }
  else if r.status = "In Progress" then { s with inProgress := s.inProgress + 1 }
  else if r.status = "Not Started" then { s with notStarted := s.notStarted + 1 }
  else if r.status = "Error" then { s with error := s.error + 1 }
  else s

/-- Embedding of `summarize_restore_status`'s aggregation (lines 54-63):
the initial summary of the enumerated `objects`, folded over the worker
results in the (non-deterministic) order `as_completed` yields them. -/
def summarize_restore_status (objects : List (String × Nat))
    (results : List StatusResult) : StatusSummary :=
  results.foldl addResult (initSummary objects)

/-- The per-object worker results, one per enumerated object, in
submission order (line 58); `as_completed` may deliver any permutation of
these. -/
def scanFutures (pfx : String) (listing : List ListedObj)
    (beh : String → S3ObjectBehavior) : List StatusResult :=
  (scanFilter pfx listing).map fun o => check_restore_status (beh o.1) o.1

/-- Python division, which raises `ZeroDivisionError` on a zero
denominator. -/
def pyDiv (a b : ℚ) : Except String ℚ :=
  if b = 0 then Except.error ("ZeroDivisionError") else Except.ok (a / b)

/-- Embedding of line 66:
`(summary['Completed'] / summary['Total']) * 100 if summary['Total'] else 0`.
The division is evaluated only when `Total` is truthy. -/
def percent_complete (s : StatusSummary) : Except String ℚ :=
  if s.total ≠ 0 then
    match pyDiv (s.completed : ℚ) (s.total : ℚ) with
    | Except.error e => Except.error e
    | Except.ok q => Except.ok (q * 100)
  else Except.ok 0

/-! ## glacier-restore.py (Restore Requester) -/

/-- Value returned by `check_and_restore_object`: the
`(key, status, tier_used)` triple; `tierUsed` is `None` exactly where the
source returns `None`. -/
structure RestoreResult where
  key : String
  status : String
  tierUsed : Option String
deriving DecidableEq, Repr

/-- One `restore_object` call as issued by the script: its `Days` and
`Tier` arguments (bucket and key are fixed per object). -/
structure RestoreCall where
  days : Nat
  tier : String
deriving DecidableEq, Repr

/-- Error-message signature tested on line 53. -/
def sigRate : String := "rate of expedited retrievals"

/-- Error-message signature tested on line 53. -/
def sigNotAllowed : String := "is not allowed"

/-- Error-message signature tested on line 54. -/
def sigCannotExpedite : String := "cannot be expedited"

/-- Error-message signature tested on line 70. -/
def sigInProgressLower : String := "already in progress"

/-- Error-message signature tested on line 73. -/
def sigInProgressCamel : String := "RestoreAlreadyInProgress"

/-- Error-message signature tested on line 76. -/
def sigRestoreNotAllowed : String := "Object restore is not allowed"

/-- Embedding of Step 2 of `check_and_restore_object` (lines 39-81): the
restore-initiation attempt with the requested tier, the substring dispatch
on the `ClientError` text, and the single Standard-tier fallback.  The
first component is the returned triple (or the uncaught exception: only
`ClientError` is caught at line 51, and the fallback's `except Exception`
at line 67 catches everything); the second component is the trace of
`restore_object` calls issued. -/
def attempt_restore (b : S3ObjectBehavior) (key : String) (days : Nat)
    (tier : String) : Except Exn RestoreResult × List RestoreCall :=
  match b.restoreResult days tier with
  | none => (Except.ok ⟨key, "Requested", some tier⟩, [⟨days, tier⟩])
  | some e =>
    if e.isClientError then
      if pyIn sigRate e.msg || pyIn sigNotAllowed e.msg
          || pyIn sigCannotExpedite e.msg then
        match b.restoreResult days ("Standard") with
        | none =>
          (Except.ok ⟨key, "Requested", some ("Standard")⟩,
            [⟨days, tier⟩, ⟨days, "Standard"⟩])
        | some _ =>
          (Except.ok ⟨key, "Failed", some ("Standard")⟩,
            [⟨days, tier⟩, ⟨days, "Standard"⟩])
      else if pyIn sigInProgressLower e.msg then
        (Except.ok ⟨key, "In Progress", some tier⟩, [⟨days, tier⟩])
      else if pyIn sigInProgressCamel e.msg then
        (Except.ok ⟨key, "In Progress", some tier⟩, [⟨days, tier⟩])
      else if pyIn sigRestoreNotAllowed e.msg then
        (Except.ok ⟨key, "Not Eligible", none⟩, [⟨days, tier⟩])
      else
        (Except.ok ⟨key, "Failed", some tier⟩, [⟨days, tier⟩])
    else
      (Except.error e, [⟨days, tier⟩])

/-- Embedding of `check_and_restore_object` (lines 19-81).  Step 1
(lines 21-37) is wrapped in `try/except Exception`: a `head_object`
failure is logged and control falls through to Step 2; a present restore
header matching neither flag also falls out of the `try` into Step 2. -/
def check_and_restore_object (b : S3ObjectBehavior) (key : String)
    (days : Nat) (tier : String) : Except Exn RestoreResult × List RestoreCall :=
  match b.headResult with
  | Except.error _ => attempt_restore b key days tier
  | Except.ok obj =>
    if !(isArchival obj.storageClass) then
      (Except.ok ⟨key, "Not Eligible", none⟩, [])
    else if pyTruthy obj.restore then
      let f := obj.restore.getD ("")
      if pyIn trueFlag f then (Except.ok ⟨key, "In Progress", some tier⟩, [])
      else if pyIn falseFlag f then (Except.ok ⟨key, "Completed", some tier⟩, [])
      else attempt_restore b key days tier
    else attempt_restore b key days tier

/-- Embedding of `list_glacier_objects` (lines 83-96): the shared listing
filter plus the archival-class restriction of line 94. -/
def list_glacier_objects (pfx : String) (listing : List ListedObj) :
    List (String × Nat) :=
  (listing.filter fun o =>
    !(o.key == pfx) && !(o.size == 0) && o.storageClass.isSome
      && isArchival o.storageClass).map fun o => (o.key, o.size)

/-- The requester's per-object futures, one per enumerated object, in
submission order (lines 116-119); each future's value is the first
component of `check_and_restore_object` (the calls happen at the remote
service, not in the returned value). -/
def requesterFutures (pfx : String) (listing : List ListedObj)
    (beh : String → S3ObjectBehavior) (days : Nat) (tier : String) :
    List (Except Exn RestoreResult) :=
  (list_glacier_objects pfx listing).map fun o =>
    (check_and_restore_object (beh o.1) o.1 days tier).1

/-- Embedding of the collection loop (lines 120-124): `future.result()`
re-raises the worker's exception, so the loop aborts at the first errored
future in completion order; otherwise all results are collected. -/
def mainCollect : List (Except Exn RestoreResult) → Except Exn (List RestoreResult)
  | [] => Except.ok []
  | f :: fs =>
    match f with
    | Except.error e => Except.error e
    | Except.ok r =>
      match mainCollect fs with
      | Except.error e => Except.error e
      | Except.ok rs => Except.ok (r :: rs)

/-- Exit status of the requester process: `main` ends without `sys.exit`,
so the process exits 0 unless an exception propagates out of the
collection loop (then Python exits nonzero with a traceback). -/
def requesterExitCode (futures : List (Except Exn RestoreResult)) : Nat :=
  match mainCollect futures with
  | Except.ok _ => 0
  | Except.error _ => 1

/-- Count of collected results with the given status
(`status_counts[status]` of lines 111 and 122). -/
def statusCount (rs : List RestoreResult) (st : String) : Nat :=
  rs.countP fun r => r.status == st

/-- Count of collected results whose truthy `tier_used` equals the given
tier (`tier_usage[tier_used]` of lines 112 and 123-124). -/
def tierUsage (rs : List RestoreResult) (t : String) : Nat :=
  rs.countP fun r => r.tierUsed == some t

/-! ## glacier-generate-dummy-files.py (Uploader) -/

/-- Python's `f'dummy_file_\x7bi:04d\x7d.txt'` name formatting
(line 18): the decimal digits of `i` left-padded with zeros to width 4. -/
def uploadFileName (i : Nat) : String :=
  let s := toString i
  let pad : String := ⟨List.replicate (4 - s.length) ('0')⟩
  "dummy_file_" ++ pad ++ s ++ ".txt"

/-- Writing a file into a directory (`open(filepath, 'w')`): creates the
name, or overwrites in place when it already exists. -/
def writeFile (dir : List String) (f : String) : List String :=
  if dir.contains f then dir else dir ++ [f]

/-- Outcome of one `upload_file` call as printed by the script: the key
stored under, and whether the store call succeeded (a failure is caught by
`except Exception` at lines 47-48 and only printed). -/
structure UploadOutcome where
  key : String
  ok : Bool
deriving DecidableEq, Repr

/-- Observable effects of one run of the Uploader script. -/
structure UploaderRun where
  generated : List String
  storeCalls : List String
  outcomes : List UploadOutcome
  dirRemoved : Bool
deriving DecidableEq, Repr

/-- Embedding of `upload_file` (lines 29-48) at the filename level
(`os.path.basename` of `os.path.join(LOCAL_DIR, f)` is `f` again): the
store call's key is `PREFIX + filename`; `oracle` says whether the remote
store call raises.  Returns the key of the call issued, and the printed
outcome. -/
def upload_file (oracle : String → Option Exn) (filename : String) :
    String × UploadOutcome :=
  let s3Key := "images/" ++ filename
  (s3Key,
    match oracle s3Key with
    | none => ⟨s3Key, true⟩
    | some _ => ⟨s3Key, false⟩)

/-- Embedding of the whole Uploader script run on a fresh local directory
(`os.makedirs` on a path holding no files), with the file count as a
parameter in place of the `NUM_FILES` constant: generate files 1..n
(lines 16-22), list the directory (line 50), issue one store call per
listed file (lines 52-53), then remove the directory unconditionally
(line 59). -/
def uploaderRun (n : Nat) (oracle : String → Option Exn) : UploaderRun :=
  let dir := (List.range n).foldl (fun d i => writeFile d (uploadFileName (i + 1))) []
  let results := dir.map (upload_file oracle)
  { generated := dir
    storeCalls := results.map Prod.fst
    outcomes := results.map Prod.snd
    dirRemoved := true }

/-! ## Helper lemmas -/

/-- The four statuses `check_restore_status` can produce (the scanner's
counter keys besides the totals). -/
def scanStatuses : List String := ["Completed", "In Progress", "Not Started", "Error"]

/-- The five statuses `check_and_restore_object` can produce (the buckets
printed on line 130 of the requester). -/
def requestStatuses : List String :=
  ["Completed", "In Progress", "Requested", "Not Eligible", "Failed"]

/-- Sum of the scanner's four status counters. -/
def sum4 (s : StatusSummary) : Nat :=
  s.completed + s.inProgress + s.notStarted + s.error

theorem scan_status_mem (b : S3ObjectBehavior) (k : String) :
    (check_restore_status b k).status ∈ scanStatuses := by
  unfold check_restore_status scanStatuses
  rcases b.headResult with e | obj
  · simp
  · simp only
    split
    · split
      · simp
      · split <;> simp
    · simp

theorem addResult_total (s : StatusSummary) (r : StatusResult) :
    (addResult s r).total = s.total := by
  unfold addResult; split_ifs <;> rfl

theorem foldl_addResult_total (rs : List StatusResult) (init : StatusSummary) :
    (rs.foldl addResult init).total = init.total := by
  induction rs generalizing init with
  | nil => rfl
  | cons r rs ih => rw [List.foldl_cons, ih, addResult_total]

theorem addResult_sum4 (s : StatusSummary) (r : StatusResult)
    (h : r.status ∈ scanStatuses) : sum4 (addResult s r) = sum4 s + 1 := by
  unfold scanStatuses at h
  simp only [List.mem_cons, List.mem_singleton, List.not_mem_nil, or_false] at h
  unfold addResult sum4
  rcases h with h | h | h | h <;> simp [h] <;> omega

theorem foldl_addResult_sum4 (rs : List StatusResult) (init : StatusSummary)
    (h : ∀ r ∈ rs, r.status ∈ scanStatuses) :
    sum4 (rs.foldl addResult init) = sum4 init + rs.length := by
  induction rs generalizing init with
  | nil => simp
  | cons r rs ih =>
    rw [List.foldl_cons, ih _ (fun x hx => h x (List.mem_cons_of_mem _ hx)),
      addResult_sum4 _ _ (h r (List.mem_cons_self _ _)), List.length_cons]
    omega

theorem attempt_status_mem (b : S3ObjectBehavior) (k : String) (days : Nat)
    (tier : String) (r : RestoreResult)
    (h : (attempt_restore b k days tier).1 = Except.ok r) :
    r.status ∈ requestStatuses := by
  unfold attempt_restore at h
  rcases hr : b.restoreResult days tier with _ | e <;> rw [hr] at h
  · cases h; simp [requestStatuses]
  · simp only at h
    split at h
    · split at h
      · rcases hs : b.restoreResult days ("Standard") with _ | e2 <;> rw [hs] at h <;>
          · cases h; simp [requestStatuses]
      · split at h
        · cases h; simp [requestStatuses]
        · split at h
          · cases h; simp [requestStatuses]
          · split at h
            · cases h; simp [requestStatuses]
            · cases h; simp [requestStatuses]
    · cases h

theorem check_status_mem (b : S3ObjectBehavior) (k : String) (days : Nat)
    (tier : String) (r : RestoreResult)
    (h : (check_and_restore_object b k days tier).1 = Except.ok r) :
    r.status ∈ requestStatuses := by
  unfold check_and_restore_object at h
  rcases hb : b.headResult with e | obj <;> rw [hb] at h
  · exact attempt_status_mem _ _ _ _ _ h
  · simp only at h
    split at h
    · cases h; simp [requestStatuses]
    · split at h
      · split at h
        · cases h; simp [requestStatuses]
        · split at h
          · cases h; simp [requestStatuses]
          · exact attempt_status_mem _ _ _ _ _ h
      · exact attempt_status_mem _ _ _ _ _ h

theorem mainCollect_ok (l : List (Except Exn RestoreResult))
    (rs : List RestoreResult) (h : mainCollect l = Except.ok rs) :
    l = rs.map Except.ok := by
  induction l generalizing rs with
  | nil =>
    unfold mainCollect at h
    cases h; rfl
  | cons f fs ih =>
    unfold mainCollect at h
    rcases f with e | r
    · cases h
    · rcases hm : mainCollect fs with e' | rs' <;> rw [hm] at h
      · cases h
      · cases h; rw [List.map_cons, ← ih _ hm]

theorem sum_statusCount (rs : List RestoreResult)
    (h : ∀ r ∈ rs, r.status ∈ requestStatuses) :
    statusCount rs ("Completed") + statusCount rs ("In Progress")
      + statusCount rs ("Requested") + statusCount rs ("Not Eligible")
      + statusCount rs ("Failed") = rs.length := by
  induction rs with
  | nil => simp [statusCount]
  | cons r rs ih =>
    have hr := h r (List.mem_cons_self _ _)
    have htail := ih fun x hx => h x (List.mem_cons_of_mem _ hx)
    unfold requestStatuses at hr
    simp only [List.mem_cons, List.mem_singleton, List.not_mem_nil, or_false] at hr
    simp only [statusCount, List.countP_cons, List.length_cons] at *
    rcases hr with hr | hr | hr | hr | hr <;> simp [hr] <;> omega

theorem pyIn_ne_empty {pat f : String} (hp : pyIn pat ("") = false)
    (h : pyIn pat f = true) : f ≠ "" := by
  rintro rfl
  rw [h] at hp
  cases hp

/-! ## Claim theorems -/

/-- C4: in the Status Scanner, for every object whose metadata fetch
succeeds, a restore header containing `ongoing-request="false"` classifies
the object Completed and its `ContentLength` is the byte count that
`RestoredSize` grows by; a header containing `ongoing-request="true"` (and
not the false flag — the S3 header carries exactly one flag, and the code
tests the false flag first) classifies it In Progress; an absent header
classifies it Not Started. -/
theorem scanner_classification_rule (b : S3ObjectBehavior) (k : String)
    (obj : HeadObj) (f : String) (s : StatusSummary)
    (hhead : b.headResult = Except.ok obj) :
    (obj.restore = some f → pyIn falseFlag f = true →
      check_restore_status b k = ⟨k, "Completed", obj.contentLength⟩) ∧
    (obj.restore = some f → pyIn trueFlag f = true → pyIn falseFlag f = false →
      check_restore_status b k = ⟨k, "In Progress", obj.contentLength⟩) ∧
    (obj.restore = none →
      check_restore_status b k = ⟨k, "Not Started", obj.contentLength⟩) ∧
    (∀ key bytes, (addResult s ⟨key, "Completed", bytes⟩).restoredSize
      = s.restoredSize + bytes) := by
  refine ⟨?_, ?_, ?_, ?_⟩
  · intro hres hfalse
    have hne : f ≠ "" := pyIn_ne_empty (by decide) hfalse
    simp [check_restore_status, hhead, hres, pyTruthy, hne, hfalse]
  · intro hres htrue hfalse
    have hne : f ≠ "" := pyIn_ne_empty (by decide) htrue
    simp [check_restore_status, hhead, hres, pyTruthy, hne, htrue, hfalse]
  · intro hres
    simp [check_restore_status, hhead, hres, pyTruthy]
  · intro key bytes
    simp [addResult]

def c4CompletedBeh : S3ObjectBehavior :=
  { headResult := Except.ok ⟨some ("ongoing-request=\"false\", expiry-date=\"Fri, 21 Dec 2012 00:00:00 GMT\""), some ("GLACIER"), 100⟩
    restoreResult := fun _ _ => none }

def c4ProgressBeh : S3ObjectBehavior :=
  { headResult := Except.ok ⟨some ("ongoing-request=\"true\""), some ("GLACIER"), 200⟩
    restoreResult := fun _ _ => none }

def c4AbsentBeh : S3ObjectBehavior :=
  { headResult := Except.ok ⟨none, some ("GLACIER"), 300⟩
    restoreResult := fun _ _ => none }

def zeroSummary : StatusSummary := ⟨0, 0, 0, 0, 0, 0, 0⟩

/-- Witness for `scanner_classification_rule` at concrete inputs. -/
theorem scanner_classification_rule_witness :
    check_restore_status c4CompletedBeh ("a") = ⟨"a", "Completed", 100⟩ ∧
    check_restore_status c4ProgressBeh ("b") = ⟨"b", "In Progress", 200⟩ ∧
    check_restore_status c4AbsentBeh ("c") = ⟨"c", "Not Started", 300⟩ ∧
    (addResult zeroSummary ⟨"a", "Completed", 100⟩).restoredSize = 100 :=
  ⟨(scanner_classification_rule c4CompletedBeh ("a") _
      ("ongoing-request=\"false\", expiry-date=\"Fri, 21 Dec 2012 00:00:00 GMT\"")
      zeroSummary rfl).1 rfl (by decide),
   (scanner_classification_rule c4ProgressBeh ("b") _
      ("ongoing-request=\"true\"") zeroSummary rfl).2.1 rfl (by decide) (by decide),
   (scanner_classification_rule c4AbsentBeh ("c") _ ("") zeroSummary rfl).2.2.1 rfl,
   (scanner_classification_rule c4AbsentBeh ("x") _ ("") zeroSummary rfl).2.2.2 ("a") 100⟩

/-- C10: the Status Scanner's percent-complete computation never raises a
`ZeroDivisionError`: it is 0 when the number of enumerated objects is 0
and `Completed / Total * 100` otherwise. -/
theorem scanner_percent_complete_safe (listing : List ListedObj)
    (pfx : String) (results : List StatusResult) :
    percent_complete (summarize_restore_status (scanFilter pfx listing) results)
      = Except.ok (if (scanFilter pfx listing).length = 0 then 0
          else ((summarize_restore_status (scanFilter pfx listing) results).completed : ℚ)
            / ((scanFilter pfx listing).length : ℚ) * 100) := by
  have htot : (summarize_restore_status (scanFilter pfx listing) results).total
      = (scanFilter pfx listing).length := by
    unfold summarize_restore_status
    rw [foldl_addResult_total]
    rfl
  unfold percent_complete pyDiv
  rw [htot]
  by_cases h : (scanFilter pfx listing).length = 0
  · simp [h]
  · have hq : ((scanFilter pfx listing).length : ℚ) ≠ 0 := Nat.cast_ne_zero.mpr h
    simp [h, hq]

/-- C2: for every listing and every completion order of the worker pool
(any permutation of the per-object results), the Status Scanner's final
counters satisfy `Total = Completed + InProgress + NotStarted + Error`,
and the Restore Requester's total equals the sum over its five status
buckets — each submitted object lands in exactly one bucket, none dropped
and none double-counted.  The requester hypothesis `mainCollect rorder =
ok rs` says every worker returned a result (no uncaught exception). -/
theorem counters_conserved_any_order (listing : List ListedObj) (pfx : String)
    (beh rbeh : String → S3ObjectBehavior) (days : Nat) (tier : String)
    (order : List StatusResult) (rorder : List (Except Exn RestoreResult))
    (rs : List RestoreResult)
    (h1 : order.Perm (scanFutures pfx listing beh))
    (h2 : rorder.Perm (requesterFutures pfx listing rbeh days tier))
    (h3 : mainCollect rorder = Except.ok rs) :
    ((summarize_restore_status (scanFilter pfx listing) order).total
      = (summarize_restore_status (scanFilter pfx listing) order).completed
        + (summarize_restore_status (scanFilter pfx listing) order).inProgress
        + (summarize_restore_status (scanFilter pfx listing) order).notStarted
        + (summarize_restore_status (scanFilter pfx listing) order).error) ∧
    (list_glacier_objects pfx listing).length
      = statusCount rs ("Completed") + statusCount rs ("In Progress")
        + statusCount rs ("Requested") + statusCount rs ("Not Eligible")
        + statusCount rs ("Failed") := by
  constructor
  · have hmem : ∀ r ∈ order, r.status ∈ scanStatuses := by
      intro r hrmem
      have hr2 : r ∈ scanFutures pfx listing beh := h1.mem_iff.mp hrmem
      unfold scanFutures at hr2
      rcases List.mem_map.mp hr2 with ⟨o, _, ho⟩
      rw [← ho]
      exact scan_status_mem _ _
    have hsum := foldl_addResult_sum4 order (initSummary (scanFilter pfx listing)) hmem
    have hlen : order.length = (scanFilter pfx listing).length := by
      rw [h1.length_eq]
      unfold scanFutures
      rw [List.length_map]
    have htot : (List.foldl addResult (initSummary (scanFilter pfx listing)) order).total
        = (scanFilter pfx listing).length := by
      rw [foldl_addResult_total]
      rfl
    have hzero : sum4 (initSummary (scanFilter pfx listing)) = 0 := rfl
    unfold sum4 at hsum hzero
    unfold summarize_restore_status
    omega
  · have hlist := mainCollect_ok rorder rs h3
    have hmem5 : ∀ r ∈ rs, r.status ∈ requestStatuses := by
      intro r hr
      have hin : Except.ok r ∈ rorder := by
        rw [hlist]
        exact List.mem_map_of_mem _ hr
      have h4 : Except.ok r ∈ requesterFutures pfx listing rbeh days tier :=
        h2.mem_iff.mp hin
      unfold requesterFutures at h4
      rcases List.mem_map.mp h4 with ⟨o, _, ho⟩
      exact check_status_mem _ _ _ _ _ ho
    have hcount := sum_statusCount rs hmem5
    have hlen2 : rs.length = (list_glacier_objects pfx listing).length := by
      have hl : rorder.length = rs.length := by
        rw [hlist, List.length_map]
      rw [← hl, h2.length_eq]
      unfold requesterFutures
      rw [List.length_map]
    omega

def c2Listing : List ListedObj :=
  [⟨"p/a", 5, some ("GLACIER")⟩, ⟨"p/b", 7, some ("STANDARD")⟩]

def c2Beh : S3ObjectBehavior :=
  { headResult := Except.ok ⟨none, some ("GLACIER"), 5⟩
    restoreResult := fun _ _ => none }

/-- Witness for `counters_conserved_any_order` on a concrete two-object
listing, taking the completion order equal to submission order. -/
theorem counters_conserved_any_order_witness :
    ((summarize_restore_status (scanFilter ("p/") c2Listing)
        (scanFutures ("p/") c2Listing (fun _ => c2Beh))).total
      = (summarize_restore_status (scanFilter ("p/") c2Listing)
          (scanFutures ("p/") c2Listing (fun _ => c2Beh))).completed
        + (summarize_restore_status (scanFilter ("p/") c2Listing)
            (scanFutures ("p/") c2Listing (fun _ => c2Beh))).inProgress
        + (summarize_restore_status (scanFilter ("p/") c2Listing)
            (scanFutures ("p/") c2Listing (fun _ => c2Beh))).notStarted
        + (summarize_restore_status (scanFilter ("p/") c2Listing)
            (scanFutures ("p/") c2Listing (fun _ => c2Beh))).error) ∧
    (list_glacier_objects ("p/") c2Listing).length
      = statusCount [⟨"p/a", "Requested", some ("Expedited")⟩] ("Completed")
        + statusCount [⟨"p/a", "Requested", some ("Expedited")⟩] ("In Progress")
        + statusCount [⟨"p/a", "Requested", some ("Expedited")⟩] ("Requested")
        + statusCount [⟨"p/a", "Requested", some ("Expedited")⟩] ("Not Eligible")
        + statusCount [⟨"p/a", "Requested", some ("Expedited")⟩] ("Failed") :=
  counters_conserved_any_order c2Listing ("p/") (fun _ => c2Beh) (fun _ => c2Beh)
    2 ("Expedited") _ _ _ (List.Perm.refl _) (List.Perm.refl _) rfl

/-- C3: a restore-initiation failure raised as a `ClientError` whose
message contains "rate of expedited retrievals" makes the requester issue
exactly one fallback call, with the Standard tier: the call trace is the
initial call followed by the single Standard call, the result is
Requested/Standard when the fallback succeeds and Failed/Standard when it
fails. -/
theorem expedited_rate_fallback (b : S3ObjectBehavior) (k : String)
    (days : Nat) (tier : String) (e : Exn)
    (h1 : b.restoreResult days tier = some e)
    (h2 : e.isClientError = true)
    (h3 : pyIn sigRate e.msg = true) :
    (attempt_restore b k days tier).2 = [⟨days, tier⟩, ⟨days, "Standard"⟩] ∧
    (b.restoreResult days ("Standard") = none →
      (attempt_restore b k days tier).1
        = Except.ok ⟨k, "Requested", some ("Standard")⟩) ∧
    (∀ e2, b.restoreResult days ("Standard") = some e2 →
      (attempt_restore b k days tier).1
        = Except.ok ⟨k, "Failed", some ("Standard")⟩) := by
  unfold attempt_restore
  rw [h1]
  simp only [h2, h3, Bool.true_or, if_true]
  refine ⟨?_, ?_, ?_⟩
  · rcases hs : b.restoreResult days ("Standard") with _ | e2 <;> simp [hs]
  · intro hs
    rw [hs]
  · intro e2 hs
    rw [hs]

def c3Exn : Exn :=
  ⟨true, "An error occurred (GlacierExpeditedRetrievalNotAvailable) when calling the RestoreObject operation: Glacier expedited retrievals are currently not available, or the rate of expedited retrievals is too high. Try again later"⟩

def c3Beh : S3ObjectBehavior :=
  { headResult := Except.ok ⟨none, some ("GLACIER"), 0⟩
    restoreResult := fun _ t => if t = "Expedited" then some c3Exn else none }

/-- Witness for `expedited_rate_fallback`: an Expedited request rejected
for rate, whose Standard fallback succeeds. -/
theorem expedited_rate_fallback_witness :
    (attempt_restore c3Beh ("k") 2 ("Expedited")).2
      = [⟨2, "Expedited"⟩, ⟨2, "Standard"⟩] ∧
    (attempt_restore c3Beh ("k") 2 ("Expedited")).1
      = Except.ok ⟨"k", "Requested", some ("Standard")⟩ :=
  ⟨(expedited_rate_fallback c3Beh ("k") 2 ("Expedited") c3Exn rfl rfl (by decide)).1,
   (expedited_rate_fallback c3Beh ("k") 2 ("Expedited") c3Exn rfl rfl (by decide)).2.1 rfl⟩

/-- C8: in the Restore Requester, an archival object whose metadata fetch
succeeds and whose restore header is present and carries an
ongoing-request flag gets no restore-initiation call (empty call trace):
a header containing `ongoing-request="true"` classifies it In Progress, a
header containing `ongoing-request="false"` (and not the true flag — the
code tests the true flag first and the S3 header carries one flag)
classifies it Completed, and the object's processing ends there. -/
theorem present_header_no_restore_call (b : S3ObjectBehavior) (k : String)
    (days : Nat) (tier : String) (obj : HeadObj) (f : String)
    (hhead : b.headResult = Except.ok obj)
    (harch : isArchival obj.storageClass = true)
    (hres : obj.restore = some f) :
    (pyIn trueFlag f = true →
      check_and_restore_object b k days tier
        = (Except.ok ⟨k, "In Progress", some tier⟩, [])) ∧
    (pyIn falseFlag f = true → pyIn trueFlag f = false →
      check_and_restore_object b k days tier
        = (Except.ok ⟨k, "Completed", some tier⟩, [])) := by
  constructor
  · intro ht
    have hne : f ≠ "" := pyIn_ne_empty (by decide) ht
    simp [check_and_restore_object, hhead, harch, pyTruthy, hres, hne, ht]
  · intro hf hnt
    have hne : f ≠ "" := pyIn_ne_empty (by decide) hf
    simp [check_and_restore_object, hhead, harch, pyTruthy, hres, hne, hf, hnt]

def c8ProgressBeh : S3ObjectBehavior :=
  { headResult := Except.ok ⟨some ("ongoing-request=\"true\""), some ("DEEP_ARCHIVE"), 9⟩
    restoreResult := fun _ _ => none }

def c8CompletedBeh : S3ObjectBehavior :=
  { headResult := Except.ok ⟨some ("ongoing-request=\"false\", expiry-date=\"Sun, 1 Jan 2012 00:00:00 GMT\""), some ("GLACIER"), 9⟩
    restoreResult := fun _ _ => none }

/-- Witness for `present_header_no_restore_call` on both header shapes. -/
theorem present_header_no_restore_call_witness :
    check_and_restore_object c8ProgressBeh ("k") 2 ("Expedited")
      = (Except.ok ⟨"k", "In Progress", some ("Expedited")⟩, []) ∧
    check_and_restore_object c8CompletedBeh ("k") 2 ("Bulk")
      = (Except.ok ⟨"k", "Completed", some ("Bulk")⟩, []) :=
  ⟨(present_header_no_restore_call c8ProgressBeh ("k") 2 ("Expedited") _
      ("ongoing-request=\"true\"") rfl (by decide) rfl).1 (by decide),
   (present_header_no_restore_call c8CompletedBeh ("k") 2 ("Bulk") _
      ("ongoing-request=\"false\", expiry-date=\"Sun, 1 Jan 2012 00:00:00 GMT\"")
      rfl (by decide) rfl).2 (by decide) (by decide)⟩

def c1Exn : Exn :=
  ⟨true, "An error occurred (InvalidObjectState) when calling the RestoreObject operation: Object restore is not allowed on the storage class of the object"⟩

def c1Beh : S3ObjectBehavior :=
  { headResult := Except.ok ⟨none, some ("GLACIER"), 0⟩
    restoreResult := fun _ t => if t = "Standard" then none else some c1Exn }

/-- C1: evaluation at the failing input.  The error text "Object restore
is not allowed" contains the substring "is not allowed" tested first on
line 53, so the requester issues a Standard-tier fallback call and
classifies the object Requested with tier Standard — not Not Eligible
with no tier and no fallback, as the dedicated (unreachable) branch on
lines 76-78 intends. -/
theorem ineligible_message_takes_fallback_branch :
    pyIn sigRestoreNotAllowed c1Exn.msg = true ∧
    pyIn sigNotAllowed c1Exn.msg = true ∧
    check_and_restore_object c1Beh ("k") 2 ("Expedited")
      = (Except.ok ⟨"k", "Requested", some ("Standard")⟩,
        [⟨2, "Expedited"⟩, ⟨2, "Standard"⟩]) :=
  ⟨by decide, by decide, rfl⟩

def c5Exn : Exn :=
  ⟨true, "An error occurred (AccessDenied) when calling the RestoreObject operation: Access Denied"⟩

def c5Beh : S3ObjectBehavior :=
  { headResult := Except.ok ⟨none, some ("GLACIER"), 0⟩
    restoreResult := fun _ _ => some c5Exn }

/-- C5 counterexample: a restore-initiation failure matching none of the
signature substrings is classified Failed with the requested tier
recorded, not with the tier unset, and it does contribute to the per-tier
usage count. -/
theorem unmatched_failure_keeps_tier_counterexample :
    (check_and_restore_object c5Beh ("k") 2 ("Expedited")).1
      = Except.ok ⟨"k", "Failed", some ("Expedited")⟩ ∧
    (check_and_restore_object c5Beh ("k") 2 ("Expedited")).1
      ≠ Except.ok ⟨"k", "Failed", none⟩ ∧
    tierUsage [⟨"k", "Failed", some ("Expedited")⟩] ("Expedited") = 1 := by
  refine ⟨rfl, ?_, rfl⟩
  intro h
  rw [show (check_and_restore_object c5Beh ("k") 2 ("Expedited")).1
      = Except.ok ⟨"k", "Failed", some ("Expedited")⟩ from rfl] at h
  simp at h

/-- C5 amended: a restore-initiation `ClientError` whose message matches
none of the tier-unavailability, already-in-progress, or ineligibility
signatures is classified Failed with the originally requested tier
recorded, so it does contribute to the per-tier usage counts. -/
theorem unmatched_failure_keeps_tier (b : S3ObjectBehavior) (k : String)
    (days : Nat) (tier : String) (e : Exn)
    (h1 : b.restoreResult days tier = some e)
    (h2 : e.isClientError = true)
    (h3 : pyIn sigRate e.msg = false)
    (h4 : pyIn sigNotAllowed e.msg = false)
    (h5 : pyIn sigCannotExpedite e.msg = false)
    (h6 : pyIn sigInProgressLower e.msg = false)
    (h7 : pyIn sigInProgressCamel e.msg = false)
    (h8 : pyIn sigRestoreNotAllowed e.msg = false) :
    (attempt_restore b k days tier).1 = Except.ok ⟨k, "Failed", some tier⟩ ∧
    tierUsage [⟨k, "Failed", some tier⟩] tier = 1 := by
  constructor
  · unfold attempt_restore
    rw [h1]
    simp [h2, h3, h4, h5, h6, h7, h8]
  · simp [tierUsage]

/-- Witness for `unmatched_failure_keeps_tier` at the concrete
AccessDenied failure. -/
theorem unmatched_failure_keeps_tier_witness :
    (attempt_restore c5Beh ("k") 2 ("Expedited")).1
      = Except.ok ⟨"k", "Failed", some ("Expedited")⟩ ∧
    tierUsage [⟨"k", "Failed", some ("Expedited")⟩] ("Expedited") = 1 :=
  unmatched_failure_keeps_tier c5Beh ("k") 2 ("Expedited") c5Exn rfl rfl
    (by decide) (by decide) (by decide) (by decide) (by decide) (by decide)

def c7Beh : S3ObjectBehavior :=
  { headResult := Except.error ⟨false, "Read timeout on endpoint URL"⟩
    restoreResult := fun _ _ => none }

/-- C7 counterexample: in the Restore Requester, when the metadata fetch
raises, the object is not classified Error (that status does not even
exist there); the code falls through to the restore-initiation attempt —
here it issues a restore call and classifies the object Requested. -/
theorem head_failure_not_error_in_requester :
    check_and_restore_object c7Beh ("k") 2 ("Expedited")
      = (Except.ok ⟨"k", "Requested", some ("Expedited")⟩, [⟨2, "Expedited"⟩]) ∧
    ("Requested" : String) ≠ "Error" :=
  ⟨rfl, by decide⟩

/-- C7 amended: in the Status Scanner a metadata-fetch exception yields
classification Error with 0 bytes (the Error bucket grows by one and the
restored-bytes total is unchanged) and the batch continues; in the
Restore Requester a metadata-fetch exception is only logged and the
object falls through to the restore-initiation attempt, taking that
attempt's classification. -/
theorem head_failure_classification (b : S3ObjectBehavior) (k : String)
    (days : Nat) (tier : String) (e : Exn) (s : StatusSummary)
    (hhead : b.headResult = Except.error e) :
    check_restore_status b k = ⟨k, "Error", 0⟩ ∧
    (addResult s ⟨k, "Error", 0⟩).restoredSize = s.restoredSize ∧
    (addResult s ⟨k, "Error", 0⟩).error = s.error + 1 ∧
    check_and_restore_object b k days tier = attempt_restore b k days tier := by
  refine ⟨?_, ?_, ?_, ?_⟩
  · simp [check_restore_status, hhead]
  · simp [addResult]
  · simp [addResult]
  · simp [check_and_restore_object, hhead]

/-- Witness for `head_failure_classification`: a failing `head_object`
behaviour whose restore attempt succeeds. -/
theorem head_failure_classification_witness :
    check_restore_status c7Beh ("k") = ⟨"k", "Error", 0⟩ ∧
    (addResult zeroSummary ⟨"k", "Error", 0⟩).restoredSize = 0 ∧
    (addResult zeroSummary ⟨"k", "Error", 0⟩).error = 1 ∧
    check_and_restore_object c7Beh ("k") 2 ("Expedited")
      = attempt_restore c7Beh ("k") 2 ("Expedited") :=
  head_failure_classification c7Beh ("k") 2 ("Expedited")
    ⟨false, "Read timeout on endpoint URL"⟩ zeroSummary rfl

theorem attempt_ok_of_clientErrors (b : S3ObjectBehavior) (k : String)
    (days : Nat) (tier : String)
    (h : ∀ d t e, b.restoreResult d t = some e → e.isClientError = true) :
    ∃ r, (attempt_restore b k days tier).1 = Except.ok r := by
  unfold attempt_restore
  rcases hr : b.restoreResult days tier with _ | e
  · exact ⟨_, rfl⟩
  · simp only [h _ _ _ hr, if_true]
    split
    · rcases hs : b.restoreResult days ("Standard") with _ | e2 <;> simp [hs]
    · split
      · exact ⟨_, rfl⟩
      · split
        · exact ⟨_, rfl⟩
        · split
          · exact ⟨_, rfl⟩
          · exact ⟨_, rfl⟩

theorem check_ok_of_clientErrors (b : S3ObjectBehavior) (k : String)
    (days : Nat) (tier : String)
    (h : ∀ d t e, b.restoreResult d t = some e → e.isClientError = true) :
    ∃ r, (check_and_restore_object b k days tier).1 = Except.ok r := by
  unfold check_and_restore_object
  rcases hb : b.headResult with e | obj
  · exact attempt_ok_of_clientErrors b k days tier h
  · simp only
    split
    · exact ⟨_, rfl⟩
    · split
      · split
        · exact ⟨_, rfl⟩
        · split
          · exact ⟨_, rfl⟩
          · exact attempt_ok_of_clientErrors b k days tier h
      · exact attempt_ok_of_clientErrors b k days tier h

theorem mainCollect_ok_of_forall (l : List (Except Exn RestoreResult))
    (h : ∀ f ∈ l, ∃ r, f = Except.ok r) :
    ∃ rs, mainCollect l = Except.ok rs := by
  induction l with
  | nil => exact ⟨[], rfl⟩
  | cons f fs ih =>
    rcases h f (List.mem_cons_self _ _) with ⟨r, hr⟩
    rcases ih (fun x hx => h x (List.mem_cons_of_mem _ hx)) with ⟨rs, hrs⟩
    subst hr
    refine ⟨r :: rs, ?_⟩
    unfold mainCollect
    rw [hrs]

def c6Exn : Exn :=
  ⟨false, "Connection was closed before we received a valid response from endpoint URL"⟩

def c6Beh : S3ObjectBehavior :=
  { headResult := Except.ok ⟨none, some ("GLACIER"), 0⟩
    restoreResult := fun _ _ => some c6Exn }

/-- C6 counterexample: a restore-initiation failure that is not a
`ClientError` (line 51 catches only `ClientError`) propagates out of the
worker, so `future.result()` re-raises it: the batch aborts and the
process exits nonzero. -/
theorem non_clienterror_aborts_batch :
    (check_and_restore_object c6Beh ("k") 2 ("Expedited")).1
      = Except.error c6Exn ∧
    requesterExitCode [(check_and_restore_object c6Beh ("k") 2 ("Expedited")).1]
      = 1 :=
  ⟨rfl, rfl⟩

/-- C6 amended: per-object failures are isolated in all three tools as
long as every restore-initiation failure in the Restore Requester is
raised as a service `ClientError`: then every requester worker returns a
classification and the process exits 0; the Status Scanner always turns
any per-object failure into one of its four statuses; the Uploader
records an outcome for every store call and removes the local directory.
A non-`ClientError` restore-initiation exception, however, aborts the
requester batch. -/
theorem failures_isolated_under_clienterrors (pfx : String)
    (listing : List ListedObj) (rbeh : String → S3ObjectBehavior)
    (days : Nat) (tier : String)
    (h : ∀ key d t e, (rbeh key).restoreResult d t = some e → e.isClientError = true) :
    requesterExitCode (requesterFutures pfx listing rbeh days tier) = 0 ∧
    (∀ b k, (check_restore_status b k).status ∈ scanStatuses) ∧
    (∀ n oracle, (uploaderRun n oracle).outcomes.length
        = (uploaderRun n oracle).storeCalls.length
      ∧ (uploaderRun n oracle).dirRemoved = true) := by
  refine ⟨?_, fun b k => scan_status_mem b k, fun n oracle => ⟨?_, rfl⟩⟩
  · have hall : ∀ f ∈ requesterFutures pfx listing rbeh days tier,
        ∃ r, f = Except.ok r := by
      intro f hf
      unfold requesterFutures at hf
      rcases List.mem_map.mp hf with ⟨o, _, ho⟩
      rcases check_ok_of_clientErrors (rbeh o.1) o.1 days tier (h o.1) with ⟨r, hr⟩
      exact ⟨r, ho ▸ hr⟩
    rcases mainCollect_ok_of_forall _ hall with ⟨rs, hrs⟩
    unfold requesterExitCode
    rw [hrs]
  · unfold uploaderRun
    simp

def c6OkBeh : S3ObjectBehavior :=
  { headResult := Except.ok ⟨none, some ("GLACIER"), 5⟩
    restoreResult := fun _ _ => none }

/-- Witness for `failures_isolated_under_clienterrors` on a concrete
one-object listing whose restore calls never raise. -/
theorem failures_isolated_under_clienterrors_witness :
    requesterExitCode (requesterFutures ("p/")
      [⟨"p/a", 5, some ("GLACIER")⟩] (fun _ => c6OkBeh) 2 ("Expedited")) = 0 :=
  (failures_isolated_under_clienterrors ("p/") [⟨"p/a", 5, some ("GLACIER")⟩]
    (fun _ => c6OkBeh) 2 ("Expedited")
    (fun _ _ _ _ hc => Option.noConfusion hc)).1

/-- C9: an Uploader run with the file count set to 5 on a fresh local
directory generates the five padded file names, issues exactly five store
calls — one per generated file, keyed by prefix plus filename — records a
printed outcome for every call whether or not the store call failed, and
removes the local directory afterwards. -/
theorem uploader_five_calls_and_cleanup (oracle : String → Option Exn) :
    (uploaderRun 5 oracle).storeCalls.length = 5 ∧
    (uploaderRun 5 oracle).generated
      = ["dummy_file_0001.txt", "dummy_file_0002.txt", "dummy_file_0003.txt",
        "dummy_file_0004.txt", "dummy_file_0005.txt"] ∧
    (uploaderRun 5 oracle).storeCalls
      = (uploaderRun 5 oracle).generated.map (fun f => "images/" ++ f) ∧
    (uploaderRun 5 oracle).outcomes
      = (uploaderRun 5 oracle).storeCalls.map
          (fun key => ⟨key, (oracle key).isNone⟩) ∧
    (uploaderRun 5 oracle).dirRemoved = true := by
  have hout : ∀ f, (upload_file oracle f).2
      = ⟨"images/" ++ f, (oracle ("images/" ++ f)).isNone⟩ := by
    intro f
    unfold upload_file
    rcases h : oracle ("images/" ++ f) with _ | e <;> simp [h]
  refine ⟨rfl, rfl, rfl, ?_, rfl⟩
  show (List.map (upload_file oracle) _).map Prod.snd
      = ((List.map (upload_file oracle) _).map Prod.fst).map _
  rw [List.map_map, List.map_map, List.map_map]
  refine List.map_congr_left ?_
  intro f _
  show (upload_file oracle f).2 = ⟨(upload_file oracle f).1, (oracle (upload_file oracle f).1).isNone⟩
  rw [hout f]
  rfl

end Glacier
